import Mathlib

/-!
Shallow embedding of the Proof-Card evidence-evaluation engine.

Sources embedded:
- `src/lib/proofCardRules.ts` (client-side preview engine) — namespace `ProofCardRules`;
- `supabase/functions/run-python/index.ts` (authoritative edge function,
  `generate_proof_card` branch) — namespace `Edge`.

JavaScript numbers on the paths embedded here are activity counts and the
rational confidence arithmetic, modelled as `Nat` and `ℚ`.  JS `Set` objects
are modelled as duplicate-free lists in insertion order; truthiness of the
optional string/number fields is modelled explicitly.
-/

/-- The only field of `learning_signals` the engine reads is
`error_correction_cycles` (`activity.learning_signals?.error_correction_cycles > 0`).
A signals object lacking the field behaves in JS like the field being 0. -/
structure LearningSignals where
  error_correction_cycles : Nat
deriving DecidableEq, Repr

/-- An activity record as consumed by both engines.  Optional fields model
JS properties that may be absent (`none`) — absent and `undefined` coincide. -/
structure Activity where
  title : Option String := none
  type : Option String := none
  date : Option String := none
  created_at : Option String := none
  evidence_source : Option String := none
  learning_signals : Option LearningSignals := none
  duration_minutes : Option Nat := none
deriving DecidableEq, Repr

/-- `s?.split('T')[0]` followed by a JS truthiness test: the prefix of the
string before the first `'T'` (the whole string when no `'T'` occurs),
dropped when absent or empty. -/
def jsDate : Option String → Option String
  | none => none
  | some s =>
    let d := String.mk (s.data.takeWhile fun c => c ≠ 'T')
    if d = "" then none else some d

/-- `Set.add`: append the element unless already present (JS sets keep
insertion order and deduplicate). -/
def insertUnique (l : List String) (s : String) : List String :=
  if s ∈ l then l else l ++ [s]

/-- JS `v || d` for an optional string: absent or empty falls back. -/
def jsOrString : Option String → String → String
  | none, d => d
  | some s, d => if s = "" then d else s

/-- `if (dateStr) uniqueDates.add(dateStr)`: add a truthy date string to the
set of unique dates. -/
def addDate (dates : List String) : Option String → List String
  | some d => insertUnique dates d
  | none => dates

/-- `if (activity.type) activityTypes.add(activity.type)`: a truthy type tag
joins the set of activity types. -/
def addType (types : List String) : Option String → List String
  | some t => if t = "" then types else insertUnique types t
  | none => types

/-- `activity.evidence_source === 'observed_in_proof' || activity.learning_signals != null`. -/
def observedB (a : Activity) : Bool :=
  (a.evidence_source == some "observed_in_proof") || a.learning_signals.isSome

/-- `activity.learning_signals?.error_correction_cycles > 0` (false when the
signals object is absent). -/
def eccB (a : Activity) : Bool :=
  match a.learning_signals with
  | some sg => decide (0 < sg.error_correction_cycles)
  | none => false

/-- The five requirement booleans — identical record shape in both source
files. -/
structure UnlockRequirements where
  multiple_days : Bool
  multiple_sessions : Bool
  observed_evidence : Bool
  growth_signal : Bool
  consistency : Bool
deriving DecidableEq, Repr

namespace Edge

/-- `UNLOCK_THRESHOLDS.MIN_UNIQUE_DAYS` in the edge function. -/
def MIN_UNIQUE_DAYS : Nat := 3

/-- `UNLOCK_THRESHOLDS.MIN_SESSIONS` in the edge function. -/
def MIN_SESSIONS : Nat := 3

/-- `UNLOCK_THRESHOLDS.MIN_OBSERVED_SESSIONS` in the edge function. -/
def MIN_OBSERVED_SESSIONS : Nat := 1

/-- `EvidenceMetrics` of the edge function (no `totalDuration` field). -/
structure EvidenceMetrics where
  uniqueDays : Nat
  sessionCount : Nat
  hasObservedEvidence : Bool
  observedSessionCount : Nat
  hasErrorCorrectionCycles : Bool
  activityTypes : List String
deriving DecidableEq, Repr

/-- Loop state of `calculateEvidenceMetrics` in the edge function. -/
structure AggState where
  uniqueDates : List String
  hasObservedEvidence : Bool
  observedSessionCount : Nat
  hasErrorCorrectionCycles : Bool
  activityTypes : List String
deriving DecidableEq, Repr

/-- One iteration of the edge function's aggregation loop (the date string
is `activity.date?.split('T')[0]`). -/
def aggStep (st : AggState) (a : Activity) : AggState :=
  let st := { st with uniqueDates := addDate st.uniqueDates (jsDate a.date) }
  let st := { st with activityTypes := addType st.activityTypes a.type }
  let st :=
    if observedB a then
      { st with hasObservedEvidence := true, observedSessionCount := st.observedSessionCount + 1 }
    else st
  if eccB a then { st with hasErrorCorrectionCycles := true } else st

/-- `calculateEvidenceMetrics` (edge function). -/
def calculateEvidenceMetrics (activities : List Activity) : EvidenceMetrics :=
  let st := activities.foldl aggStep ⟨[], false, 0, false, []⟩
  { uniqueDays := st.uniqueDates.length
    sessionCount := activities.length
    hasObservedEvidence := st.hasObservedEvidence
    observedSessionCount := st.observedSessionCount
    hasErrorCorrectionCycles := st.hasErrorCorrectionCycles
    activityTypes := st.activityTypes }

/-- `evaluateUnlockRequirements` (edge function). -/
def evaluateUnlockRequirements (m : EvidenceMetrics) : UnlockRequirements :=
  { multiple_days := MIN_UNIQUE_DAYS ≤ m.uniqueDays
    multiple_sessions := MIN_SESSIONS ≤ m.sessionCount
    observed_evidence := m.hasObservedEvidence
    growth_signal := m.hasErrorCorrectionCycles || 2 ≤ m.observedSessionCount
    consistency := 1 ≤ m.activityTypes.length && MIN_SESSIONS ≤ m.sessionCount }

/-- `shouldUnlock` (edge function). -/
def shouldUnlock (r : UnlockRequirements) : Bool :=
  r.multiple_days && r.multiple_sessions && r.observed_evidence &&
    r.growth_signal && r.consistency

/-- `getMissingRequirements` (edge function): conditional pushes onto an
array, in source order. -/
def getMissingRequirements (r : UnlockRequirements) (m : EvidenceMetrics) : List String :=
  let missing : List String := []
  let missing := if !r.multiple_days then
    missing ++ ["Evidence spans only " ++ toString m.uniqueDays ++
      " day(s). Need at least " ++ toString MIN_UNIQUE_DAYS ++ " distinct days."]
    else missing
  let missing := if !r.multiple_sessions then
    missing ++ ["Only " ++ toString m.sessionCount ++
      " session(s) recorded. Need at least " ++ toString MIN_SESSIONS ++ " sessions."]
    else missing
  let missing := if !r.observed_evidence then
    missing ++ ["No observed learning process evidence. Use a Learning Space to generate process signals."]
    else missing
  let missing := if !r.growth_signal then
    missing ++ ["No clear growth signal detected. Continue practicing to demonstrate improvement over time."]
    else missing
  let missing := if !r.consistency then
    missing ++ ["Insufficient consistent practice detected across sessions."]
    else missing
  missing

/-- `calculateConfidenceScore` (edge function), over exact rationals. -/
def calculateConfidenceScore (m : EvidenceMetrics) : ℚ :=
  let score : ℚ := 0.2
  let score := score + min ((m.uniqueDays : ℚ) / 10) 0.15
  let score := score + min ((m.sessionCount : ℚ) / 20) 0.1
  let score := score + min ((m.observedSessionCount : ℚ) / 5) 0.1
  let score := if m.hasErrorCorrectionCycles then score + 0.05 else score
  min score 0.6

/-- `getConfidenceLevel` (edge function). -/
def getConfidenceLevel (score : ℚ) : String :=
  if score < 0.3 then "emerging"
  else if score < 0.45 then "developing"
  else "early_evidence"

end Edge

namespace ProofCardRules

/-- `EvidenceMetrics` of `proofCardRules.ts` — it additionally tracks
`totalDuration`. -/
structure EvidenceMetrics where
  uniqueDays : Nat
  sessionCount : Nat
  hasObservedEvidence : Bool
  observedSessionCount : Nat
  totalDuration : Nat
  hasErrorCorrectionCycles : Bool
  activityTypes : List String
deriving DecidableEq, Repr

/-- Loop state of `calculateEvidenceMetrics` in `proofCardRules.ts`. -/
structure AggState where
  uniqueDates : List String
  hasObservedEvidence : Bool
  observedSessionCount : Nat
  totalDuration : Nat
  hasErrorCorrectionCycles : Bool
  activityTypes : List String
deriving DecidableEq, Repr

/-- One iteration of the client-side aggregation loop.  Unlike the edge
function, the date string is `activity.created_at?.split('T')[0] ||
activity.date?.split('T')[0]`, and `duration_minutes` is summed when truthy. -/
def aggStep (st : AggState) (a : Activity) : AggState :=
  let dateStr := (jsDate a.created_at).or (jsDate a.date)
  let st := { st with uniqueDates := addDate st.uniqueDates dateStr }
  let st := { st with activityTypes := addType st.activityTypes a.type }
  let st :=
    if observedB a then
      { st with hasObservedEvidence := true, observedSessionCount := st.observedSessionCount + 1 }
    else st
  let st :=
    match a.duration_minutes with
    | some d => if d = 0 then st else { st with totalDuration := st.totalDuration + d }
    | none => st
  if eccB a then { st with hasErrorCorrectionCycles := true } else st

/-- `calculateEvidenceMetrics` (`proofCardRules.ts`). -/
def calculateEvidenceMetrics (activities : List Activity) : EvidenceMetrics :=
  let st := activities.foldl aggStep ⟨[], false, 0, 0, false, []⟩
  { uniqueDays := st.uniqueDates.length
    sessionCount := activities.length
    hasObservedEvidence := st.hasObservedEvidence
    observedSessionCount := st.observedSessionCount
    totalDuration := st.totalDuration
    hasErrorCorrectionCycles := st.hasErrorCorrectionCycles
    activityTypes := st.activityTypes }

/-- `evaluateUnlockRequirements` (`proofCardRules.ts`). -/
def evaluateUnlockRequirements (m : EvidenceMetrics) : UnlockRequirements :=
  { multiple_days := 3 ≤ m.uniqueDays
    multiple_sessions := 3 ≤ m.sessionCount
    observed_evidence := m.hasObservedEvidence
    growth_signal := m.hasErrorCorrectionCycles || 2 ≤ m.observedSessionCount
    consistency := 1 ≤ m.activityTypes.length && 3 ≤ m.sessionCount }

/-- `shouldUnlock` (`proofCardRules.ts`). -/
def shouldUnlock (r : UnlockRequirements) : Bool :=
  r.multiple_days && r.multiple_sessions && r.observed_evidence &&
    r.growth_signal && r.consistency

/-- `calculateConfidenceScore` (`proofCardRules.ts`). -/
def calculateConfidenceScore (m : EvidenceMetrics) : ℚ :=
  let score : ℚ := 0.2
  let score := score + min ((m.uniqueDays : ℚ) / 10) 0.15
  let score := score + min ((m.sessionCount : ℚ) / 20) 0.1
  let score := score + min ((m.observedSessionCount : ℚ) / 5) 0.1
  let score := if m.hasErrorCorrectionCycles then score + 0.05 else score
  min score 0.6

end ProofCardRules

namespace Edge

/-- The shape the edge function reads out of the collaborator's parsed JSON
(`aiParsed.evidence_summary`, `aiParsed.observed_growth_trends`,
`aiParsed.limitations`); each property may be absent. -/
structure AIParsed where
  evidence_summary : Option String := none
  observed_growth_trends : Option (List String) := none
  limitations : Option String := none
deriving DecidableEq, Repr

/-- Observable behaviour of the explanatory-text collaborator for one call,
covering every distinct path the source takes after `fetch` is initiated:

* `fetchReject msg` — the `fetch` promise itself rejects (network failure or
  timeout); there is no local try/catch around the call, so the rejection
  propagates to the handler's catch-all, which answers HTTP 500 with `msg`;
* `httpFailure` — the response arrives with `!response.ok`; the code takes
  the deterministic fallback and still returns an unlocked payload;
* `okBodyUnparseable msg` — `response.ok` holds but `await response.json()`
  rejects (non-JSON body; a body of `null` also fails one line later at
  `aiData.choices` with the same observable outcome), again reaching the
  catch-all 500 with `msg`;
* `okContentNull` — the body parses and the message content is the JSON text
  `null`: `JSON.parse` succeeds and yields `null` without entering the local
  catch, and the subsequent `aiParsed.evidence_summary` access throws a
  TypeError that reaches the catch-all 500;
* `ok parsed` — the content reaches `JSON.parse` inside the local
  try/catch: `ok none` models the parse throwing (leaving `aiParsed = {}`),
  `ok (some p)` models it yielding any non-null value whose property reads
  give `p`'s fields (a primitive or array reads as all-absent, like `{}`). -/
inductive CollabBehaviour
  | fetchReject (msg : String)
  | httpFailure
  | okBodyUnparseable (msg : String)
  | okContentNull
  | ok (parsed : Option AIParsed)
deriving DecidableEq, Repr

/-- The message of the TypeError raised when `aiParsed` is `null` and the
code reads `aiParsed.evidence_summary` (`index.ts` unlockedResponse
assembly).  The exact wording is JS-engine-specific (V8 quotes the property
name); it is modelled as this fixed string and no theorem depends on it. -/
def nullTypeErrorMessage : String :=
  "Cannot read properties of null (reading evidence_summary)"

/-- `current_progress` of the locked payload. -/
structure CurrentProgress where
  days_count : Nat
  sessions_count : Nat
  has_observed_evidence : Bool
deriving DecidableEq, Repr

/-- The locked response body assembled by the edge function. -/
structure LockedPayload where
  requirements_met : UnlockRequirements
  missing_requirements : List String
  current_progress : CurrentProgress
  what_would_unlock : String
  encouragement : String
deriving DecidableEq, Repr

/-- The unlocked response body assembled by the edge function. -/
structure UnlockedPayload where
  requirements_met : UnlockRequirements
  evidence_summary : String
  growth_trend : String
  confidence_score : ℚ
  confidence_level : String
  explanation : String
  time_span : String
  session_count : Nat
  observed_growth_trends : List String
  limitations : String
deriving DecidableEq, Repr

/-- Wire responses of the `generate_proof_card` branch: the two payloads, or
the catch-all 500 error response. -/
inductive ProofCardResponse
  | locked (p : LockedPayload)
  | unlocked (p : UnlockedPayload)
  | err (msg : String)
deriving DecidableEq, Repr

/-- The `generate_proof_card` branch of the edge function's `serve` handler.
`apiKeyPresent` models whether `Deno.env.get("LOVABLE_API_KEY")` is set;
`collab` is the collaborator's behaviour if it is called.  The second
component counts how many collaborator (AI gateway) calls were made.
JS `dates.sort()` (a stable sort under lexicographic string order) is
modelled by `List.insertionSort (· ≤ ·)`, which is also stable. -/
def generateProofCard (apiKeyPresent : Bool) (collab : CollabBehaviour)
    (skill_name _category : String) (activities : List Activity) :
    ProofCardResponse × Nat :=
  if !apiKeyPresent then
    (.err "LOVABLE_API_KEY is not configured", 0)
  else
    let metrics := calculateEvidenceMetrics activities
    let requirements := evaluateUnlockRequirements metrics
    let canUnlock := shouldUnlock requirements
    if !canUnlock then
      (.locked
        { requirements_met := requirements
          missing_requirements := getMissingRequirements requirements metrics
          current_progress :=
            { days_count := metrics.uniqueDays
              sessions_count := metrics.sessionCount
              has_observed_evidence := metrics.hasObservedEvidence }
          what_would_unlock := "Continue practicing this skill over multiple days with observed learning sessions. Use the Code or Writing Learning Spaces to generate process evidence."
          encouragement := "Your learning is being tracked. Proof Cards require sustained evidence over time—slowness is a feature, not a bug. Keep practicing!" }, 0)
    else
      let confidenceScore := calculateConfidenceScore metrics
      let confidenceLevel := getConfidenceLevel confidenceScore
      let dates := List.insertionSort (· ≤ ·) (activities.filterMap fun a => jsDate a.date)
      let timeSpan :=
        if 1 < dates.length then dates.headD "" ++ " to " ++ dates.getLastD ""
        else dates.headD "Recent"
      let growthTrend := if metrics.hasErrorCorrectionCycles then "improving" else "stable"
      match collab with
      | .fetchReject msg => (.err msg, 1)
      | .okBodyUnparseable msg => (.err msg, 1)
      | .okContentNull => (.err nullTypeErrorMessage, 1)
      | .httpFailure =>
        (.unlocked
          { requirements_met := requirements
            evidence_summary := "Observed " ++ toString metrics.sessionCount ++
              " learning sessions for " ++ skill_name ++ " across " ++
              toString metrics.uniqueDays ++ " days with process evidence."
            growth_trend := growthTrend
            confidence_score := confidenceScore
            confidence_level := confidenceLevel
            explanation := "Evidence is " ++ confidenceLevel ++ ". Based on " ++
              toString metrics.observedSessionCount ++ " observed sessions with process signals."
            time_span := timeSpan
            session_count := metrics.sessionCount
            observed_growth_trends := ["Learning process observed", "Consistent practice detected"]
            limitations := "Early evidence. Confidence will increase with continued practice over time." }, 1)
      | .ok parsed =>
        let aiParsed : AIParsed := parsed.getD {}
        (.unlocked
          { requirements_met := requirements
            evidence_summary := jsOrString aiParsed.evidence_summary
              ("Observed " ++ toString metrics.sessionCount ++ " learning sessions for " ++
                skill_name ++ " across " ++ toString metrics.uniqueDays ++ " days.")
            growth_trend := growthTrend
            confidence_score := confidenceScore
            confidence_level := confidenceLevel
            explanation := "Confidence is " ++ confidenceLevel ++ " based on " ++
              toString metrics.observedSessionCount ++ " observed sessions across " ++
              toString metrics.uniqueDays ++ " days. " ++ jsOrString aiParsed.limitations ""
            time_span := timeSpan
            session_count := metrics.sessionCount
            observed_growth_trends := aiParsed.observed_growth_trends.getD ["Learning process observed"]
            limitations := jsOrString aiParsed.limitations
              "Early evidence. Confidence will increase with continued practice." }, 1)

/-- Unlock decision carried by a response (`none` for the error response). -/
def respDecision : ProofCardResponse → Option Bool
  | .locked _ => some false
  | .unlocked _ => some true
  | .err _ => none

/-- `requirements_met` carried by a response. -/
def respRequirements : ProofCardResponse → Option UnlockRequirements
  | .locked p => some p.requirements_met
  | .unlocked p => some p.requirements_met
  | .err _ => none

/-- `confidence_score` carried by a response (only unlocked payloads have one). -/
def respConfidence : ProofCardResponse → Option ℚ
  | .unlocked p => some p.confidence_score
  | _ => none

/-- `confidence_level` carried by a response. -/
def respLevel : ProofCardResponse → Option String
  | .unlocked p => some p.confidence_level
  | _ => none

/-- `growth_trend` carried by a response. -/
def respTrend : ProofCardResponse → Option String
  | .unlocked p => some p.growth_trend
  | _ => none

/-- `time_span` carried by a response. -/
def respTimeSpan : ProofCardResponse → Option String
  | .unlocked p => some p.time_span
  | _ => none

/-- `evidence_summary` carried by a response. -/
def respEvidenceSummary : ProofCardResponse → Option String
  | .unlocked p => some p.evidence_summary
  | _ => none

end Edge

/-! ### Helper lemmas about the aggregation loops -/

theorem insertUnique_length_le (l : List String) (s : String) :
    (insertUnique l s).length ≤ l.length + 1 := by
  unfold insertUnique
  split <;> simp

namespace Edge

theorem aggStep_uniqueDates (st : AggState) (a : Activity) :
    (aggStep st a).uniqueDates = addDate st.uniqueDates (jsDate a.date) := by
  simp only [aggStep]
  repeat' split
  all_goals rfl

theorem aggStep_activityTypes (st : AggState) (a : Activity) :
    (aggStep st a).activityTypes = addType st.activityTypes a.type := by
  simp only [aggStep]
  repeat' split
  all_goals rfl

theorem aggStep_hasObservedEvidence (st : AggState) (a : Activity) :
    (aggStep st a).hasObservedEvidence = (st.hasObservedEvidence || observedB a) := by
  simp only [aggStep]
  repeat' split
  all_goals simp_all

theorem aggStep_observedSessionCount (st : AggState) (a : Activity) :
    (aggStep st a).observedSessionCount =
      st.observedSessionCount + (if observedB a then 1 else 0) := by
  simp only [aggStep]
  repeat' split
  all_goals simp_all

theorem aggStep_hasErrorCorrectionCycles (st : AggState) (a : Activity) :
    (aggStep st a).hasErrorCorrectionCycles = (st.hasErrorCorrectionCycles || eccB a) := by
  simp only [aggStep]
  repeat' split
  all_goals simp_all

/-- Once the loop has seen observed evidence, the observed-session counter is
positive. -/
theorem foldl_observed_invariant (acts : List Activity) (st : AggState)
    (h : st.hasObservedEvidence = true → 1 ≤ st.observedSessionCount) :
    (acts.foldl aggStep st).hasObservedEvidence = true →
      1 ≤ (acts.foldl aggStep st).observedSessionCount := by
  induction acts generalizing st with
  | nil => simpa using h
  | cons a acts ih =>
    simp only [List.foldl_cons]
    apply ih
    intro hobs
    rw [aggStep_hasObservedEvidence] at hobs
    rw [aggStep_observedSessionCount]
    cases hB : observedB a with
    | true => simp
    | false =>
      rw [hB] at hobs
      simp only [Bool.or_false] at hobs
      simpa using h hobs

/-- The number of distinct dates collected is at most the number of
activities carrying a truthy date string. -/
theorem foldl_uniqueDates_length_le (acts : List Activity) (st : AggState) :
    (acts.foldl aggStep st).uniqueDates.length ≤
      st.uniqueDates.length + (acts.filterMap fun a => jsDate a.date).length := by
  induction acts generalizing st with
  | nil => simp
  | cons a acts ih =>
    simp only [List.foldl_cons, List.filterMap_cons]
    cases hd : jsDate a.date with
    | none =>
      have := ih (aggStep st a)
      rw [aggStep_uniqueDates, hd] at this
      simpa [addDate] using this
    | some d =>
      have := ih (aggStep st a)
      rw [aggStep_uniqueDates, hd] at this
      simp only [addDate] at this
      have hlen := insertUnique_length_le st.uniqueDates d
      simp only [List.length_cons]
      omega

end Edge

namespace ProofCardRules

theorem client_aggStep_uniqueDates (st : AggState) (a : Activity) :
    (aggStep st a).uniqueDates =
      addDate st.uniqueDates ((jsDate a.created_at).or (jsDate a.date)) := by
  simp only [aggStep]
  repeat' split
  all_goals rfl

theorem client_aggStep_activityTypes (st : AggState) (a : Activity) :
    (aggStep st a).activityTypes = addType st.activityTypes a.type := by
  simp only [aggStep]
  repeat' split
  all_goals rfl

theorem client_aggStep_hasObservedEvidence (st : AggState) (a : Activity) :
    (aggStep st a).hasObservedEvidence = (st.hasObservedEvidence || observedB a) := by
  simp only [aggStep]
  repeat' split
  all_goals simp_all

theorem client_aggStep_observedSessionCount (st : AggState) (a : Activity) :
    (aggStep st a).observedSessionCount =
      st.observedSessionCount + (if observedB a then 1 else 0) := by
  simp only [aggStep]
  repeat' split
  all_goals simp_all

theorem client_aggStep_hasErrorCorrectionCycles (st : AggState) (a : Activity) :
    (aggStep st a).hasErrorCorrectionCycles = (st.hasErrorCorrectionCycles || eccB a) := by
  simp only [aggStep]
  repeat' split
  all_goals simp_all

end ProofCardRules

/-! ### Claim theorems -/

/-- C2: `shouldUnlock (evaluateUnlockRequirements metrics)` is true iff all
five requirement booleans are true (multiple_days ⟺ uniqueDays ≥ 3,
multiple_sessions ⟺ sessionCount ≥ 3, observed_evidence ⟺
hasObservedEvidence, growth_signal ⟺ hasErrorCorrectionCycles ∨
observedSessionCount ≥ 2, consistency ⟺ activityTypes non-empty ∧
sessionCount ≥ 3), and flipping any single one of the five booleans to false
makes `shouldUnlock` false. -/
theorem C2_shouldUnlock_iff_all_requirements (m : Edge.EvidenceMetrics) :
    (Edge.shouldUnlock (Edge.evaluateUnlockRequirements m) = true ↔
      (3 ≤ m.uniqueDays ∧ 3 ≤ m.sessionCount ∧ m.hasObservedEvidence = true ∧
        (m.hasErrorCorrectionCycles = true ∨ 2 ≤ m.observedSessionCount) ∧
        (m.activityTypes ≠ [] ∧ 3 ≤ m.sessionCount))) ∧
    Edge.shouldUnlock { Edge.evaluateUnlockRequirements m with multiple_days := false } = false ∧
    Edge.shouldUnlock { Edge.evaluateUnlockRequirements m with multiple_sessions := false } = false ∧
    Edge.shouldUnlock { Edge.evaluateUnlockRequirements m with observed_evidence := false } = false ∧
    Edge.shouldUnlock { Edge.evaluateUnlockRequirements m with growth_signal := false } = false ∧
    Edge.shouldUnlock { Edge.evaluateUnlockRequirements m with consistency := false } = false := by
  have hne : m.activityTypes ≠ [] ↔ 1 ≤ m.activityTypes.length := by
    rw [← List.length_pos]
    omega
  refine ⟨?_, ?_, ?_, ?_, ?_, ?_⟩ <;>
    simp [Edge.shouldUnlock, Edge.evaluateUnlockRequirements, Edge.MIN_UNIQUE_DAYS,
      Edge.MIN_SESSIONS, hne]
  tauto

/-- C4: `calculateConfidenceScore` equals the spec's formula
`0.2 + min(uniqueDays/10, 0.15) + min(sessionCount/20, 0.1) +
min(observedSessionCount/5, 0.1) + (0.05 if hasErrorCorrectionCycles else 0)`,
with the sum finally clamped to at most 0.6. -/
theorem C4_confidence_score_formula (m : Edge.EvidenceMetrics) :
    Edge.calculateConfidenceScore m =
      min (0.2 + min ((m.uniqueDays : ℚ) / 10) 0.15 + min ((m.sessionCount : ℚ) / 20) 0.1 +
        min ((m.observedSessionCount : ℚ) / 5) 0.1 +
        (if m.hasErrorCorrectionCycles then (0.05 : ℚ) else 0)) 0.6 := by
  cases h : m.hasErrorCorrectionCycles <;> simp [Edge.calculateConfidenceScore, h]

/-- C5: `calculateConfidenceScore` is monotone in `uniqueDays`,
`sessionCount` and `observedSessionCount` (all other fields held fixed), and
its output always lies within `[0.2, 0.6]`. -/
theorem C5_confidence_monotone_and_bounded :
    (∀ (m : Edge.EvidenceMetrics) (d : Nat), m.uniqueDays ≤ d →
      Edge.calculateConfidenceScore m ≤ Edge.calculateConfidenceScore { m with uniqueDays := d }) ∧
    (∀ (m : Edge.EvidenceMetrics) (s : Nat), m.sessionCount ≤ s →
      Edge.calculateConfidenceScore m ≤ Edge.calculateConfidenceScore { m with sessionCount := s }) ∧
    (∀ (m : Edge.EvidenceMetrics) (o : Nat), m.observedSessionCount ≤ o →
      Edge.calculateConfidenceScore m ≤
        Edge.calculateConfidenceScore { m with observedSessionCount := o }) ∧
    (∀ m : Edge.EvidenceMetrics,
      0.2 ≤ Edge.calculateConfidenceScore m ∧ Edge.calculateConfidenceScore m ≤ 0.6) := by
  have hterm : ∀ (n : Nat) (den cap : ℚ), 0 < den → 0 ≤ cap → 0 ≤ min ((n : ℚ) / den) cap := by
    intro n den cap hden hcap
    exact le_min (by positivity) hcap
  have hmono : ∀ (n n' : Nat) (den cap : ℚ), 0 < den → n ≤ n' →
      min ((n : ℚ) / den) cap ≤ min ((n' : ℚ) / den) cap := by
    intro n n' den cap hden h
    apply min_le_min _ le_rfl
    gcongr
  refine ⟨?_, ?_, ?_, ?_⟩
  · intro m d h
    have key := hmono m.uniqueDays d 10 0.15 (by norm_num) h
    simp only [Edge.calculateConfidenceScore]
    apply min_le_min _ le_rfl
    split_ifs <;> linarith
  · intro m s h
    have key := hmono m.sessionCount s 20 0.1 (by norm_num) h
    simp only [Edge.calculateConfidenceScore]
    apply min_le_min _ le_rfl
    split_ifs <;> linarith
  · intro m o h
    have key := hmono m.observedSessionCount o 5 0.1 (by norm_num) h
    simp only [Edge.calculateConfidenceScore]
    apply min_le_min _ le_rfl
    split_ifs <;> linarith
  · intro m
    have h1 := hterm m.uniqueDays 10 0.15 (by norm_num) (by norm_num)
    have h2 := hterm m.sessionCount 20 0.1 (by norm_num) (by norm_num)
    have h3 := hterm m.observedSessionCount 5 0.1 (by norm_num) (by norm_num)
    simp only [Edge.calculateConfidenceScore]
    constructor
    · apply le_min _ (by norm_num)
      split_ifs <;> linarith
    · exact min_le_right _ _

/-- C5 witness: a concrete instance of the monotonicity and bound parts. -/
theorem C5_witness :
    Edge.calculateConfidenceScore ⟨2, 2, false, 0, false, []⟩ ≤
      Edge.calculateConfidenceScore ⟨4, 2, false, 0, false, []⟩ ∧
    0.2 ≤ Edge.calculateConfidenceScore ⟨2, 2, false, 0, false, []⟩ := by
  constructor
  · exact C5_confidence_monotone_and_bounded.1 ⟨2, 2, false, 0, false, []⟩ 4 (by decide)
  · exact (C5_confidence_monotone_and_bounded.2.2.2 ⟨2, 2, false, 0, false, []⟩).1

/-- C8 (amended): `getMissingRequirements` appends one message per unmet
requirement in the fixed order days, sessions, observed evidence, growth
signal, consistency, and no message for met requirements; the days and
sessions messages state the current numeric value and the threshold, while
the observed-evidence, growth-signal and consistency messages are fixed
strings. -/
theorem C8_amended_missing_requirements (r : UnlockRequirements) (m : Edge.EvidenceMetrics) :
    Edge.getMissingRequirements r m =
      ([(r.multiple_days,
          "Evidence spans only " ++ toString m.uniqueDays ++ " day(s). Need at least 3 distinct days."),
        (r.multiple_sessions,
          "Only " ++ toString m.sessionCount ++ " session(s) recorded. Need at least 3 sessions."),
        (r.observed_evidence,
          "No observed learning process evidence. Use a Learning Space to generate process signals."),
        (r.growth_signal,
          "No clear growth signal detected. Continue practicing to demonstrate improvement over time."),
        (r.consistency,
          "Insufficient consistent practice detected across sessions.")].filterMap
        fun p => if p.1 then none else some p.2) := by
  have hd : ∀ n : Nat,
      "Evidence spans only " ++ toString n ++ " day(s). Need at least " ++
          toString Edge.MIN_UNIQUE_DAYS ++ " distinct days." =
        "Evidence spans only " ++ toString n ++ " day(s). Need at least 3 distinct days." := by
    intro n
    simp only [String.append_assoc, Edge.MIN_UNIQUE_DAYS]
    congr 2
  have hs : ∀ n : Nat,
      "Only " ++ toString n ++ " session(s) recorded. Need at least " ++
          toString Edge.MIN_SESSIONS ++ " sessions." =
        "Only " ++ toString n ++ " session(s) recorded. Need at least 3 sessions." := by
    intro n
    simp only [String.append_assoc, Edge.MIN_SESSIONS]
    congr 2
  obtain ⟨d, s, o, g, c⟩ := r
  cases d <;> cases s <;> cases o <;> cases g <;> cases c <;>
    simp [Edge.getMissingRequirements, hd, hs]

/-- C8 counterexample: for metrics with `observedSessionCount = 1` whose only
unmet requirement is the growth signal (current value 1, threshold 2), the
single appended message contains no digit characters at all, so it does not
state the current numeric value nor the threshold. -/
theorem C8_counterexample :
    Edge.getMissingRequirements
        (Edge.evaluateUnlockRequirements ⟨5, 5, true, 1, false, ["code"]⟩)
        ⟨5, 5, true, 1, false, ["code"]⟩ =
      ["No clear growth signal detected. Continue practicing to demonstrate improvement over time."] ∧
    (⟨5, 5, true, 1, false, ["code"]⟩ : Edge.EvidenceMetrics).observedSessionCount = 1 ∧
    ("No clear growth signal detected. Continue practicing to demonstrate improvement over time.".data.all
      fun ch => !ch.isDigit) = true := by
  refine ⟨by rfl, by rfl, by decide⟩

/-- C10: whenever the computed metrics of an activity list satisfy
`shouldUnlock`, the confidence score lies in `[0.55, 0.6]`, so
`getConfidenceLevel` of that score is always `"early_evidence"` — the
`"emerging"` and `"developing"` levels cannot appear on an unlocked card. -/
theorem C10_unlocked_confidence_band (acts : List Activity)
    (h : Edge.shouldUnlock
      (Edge.evaluateUnlockRequirements (Edge.calculateEvidenceMetrics acts)) = true) :
    0.55 ≤ Edge.calculateConfidenceScore (Edge.calculateEvidenceMetrics acts) ∧
    Edge.calculateConfidenceScore (Edge.calculateEvidenceMetrics acts) ≤ 0.6 ∧
    Edge.getConfidenceLevel
      (Edge.calculateConfidenceScore (Edge.calculateEvidenceMetrics acts)) = "early_evidence" := by
  set m := Edge.calculateEvidenceMetrics acts with hm
  simp only [Edge.shouldUnlock, Edge.evaluateUnlockRequirements, Edge.MIN_UNIQUE_DAYS,
    Edge.MIN_SESSIONS, Bool.and_eq_true, decide_eq_true_eq] at h
  obtain ⟨⟨⟨⟨hd, hsess⟩, hobs⟩, hg⟩, hc⟩ := h
  have hobs1 : 1 ≤ m.observedSessionCount := by
    have hinv := Edge.foldl_observed_invariant acts ⟨[], false, 0, false, []⟩ (by simp)
    have hfield : m.hasObservedEvidence =
        (acts.foldl Edge.aggStep ⟨[], false, 0, false, []⟩).hasObservedEvidence := rfl
    have hfield2 : m.observedSessionCount =
        (acts.foldl Edge.aggStep ⟨[], false, 0, false, []⟩).observedSessionCount := rfl
    rw [hfield2]
    exact hinv (hfield ▸ hobs)
  have e1 : min ((m.uniqueDays : ℚ) / 10) 0.15 = 0.15 := by
    have : (3 : ℚ) ≤ (m.uniqueDays : ℚ) := by exact_mod_cast hd
    apply min_eq_right
    linarith
  have e2 : min ((m.sessionCount : ℚ) / 20) 0.1 = 0.1 := by
    have : (3 : ℚ) ≤ (m.sessionCount : ℚ) := by exact_mod_cast hsess
    apply min_eq_right
    linarith
  have e3 : min ((m.observedSessionCount : ℚ) / 5) 0.1 = 0.1 := by
    have : (1 : ℚ) ≤ (m.observedSessionCount : ℚ) := by exact_mod_cast hobs1
    apply min_eq_right
    linarith
  have hscore : Edge.calculateConfidenceScore m = 0.55 ∨
      Edge.calculateConfidenceScore m = 0.6 := by
    simp only [Edge.calculateConfidenceScore, e1, e2, e3]
    cases m.hasErrorCorrectionCycles
    · left
      norm_num [min_eq_left]
    · right
      norm_num [min_eq_right]
  rcases hscore with hs | hs <;> rw [hs] <;>
    refine ⟨by norm_num, by norm_num, ?_⟩ <;>
    simp only [Edge.getConfidenceLevel] <;> norm_num

/-- C10 witness: three observed activities on three distinct days unlock, and
the theorem then pins the confidence band and level. -/
theorem C10_witness :
    0.55 ≤ Edge.calculateConfidenceScore (Edge.calculateEvidenceMetrics
      [{ date := some "2025-01-01T10:00:00Z", type := some "code",
         evidence_source := some "observed_in_proof", learning_signals := some ⟨1⟩ },
       { date := some "2025-01-02T10:00:00Z", type := some "code",
         evidence_source := some "observed_in_proof" },
       { date := some "2025-01-03T10:00:00Z", type := some "code",
         evidence_source := some "submitted" }]) :=
  (C10_unlocked_confidence_band
    [{ date := some "2025-01-01T10:00:00Z", type := some "code",
       evidence_source := some "observed_in_proof", learning_signals := some ⟨1⟩ },
     { date := some "2025-01-02T10:00:00Z", type := some "code",
       evidence_source := some "observed_in_proof" },
     { date := some "2025-01-03T10:00:00Z", type := some "code",
       evidence_source := some "submitted" }] (by decide)).1

/-- When no activity carries a `created_at` value, the client loop's date
fallback coincides with the server loop's, and the two aggregation loops
agree on every shared state field. -/
theorem client_server_foldl_agree :
    ∀ (acts : List Activity) (cst : ProofCardRules.AggState) (sst : Edge.AggState),
      cst.uniqueDates = sst.uniqueDates →
      cst.hasObservedEvidence = sst.hasObservedEvidence →
      cst.observedSessionCount = sst.observedSessionCount →
      cst.hasErrorCorrectionCycles = sst.hasErrorCorrectionCycles →
      cst.activityTypes = sst.activityTypes →
      (∀ a ∈ acts, a.created_at = none) →
      (acts.foldl ProofCardRules.aggStep cst).uniqueDates =
        (acts.foldl Edge.aggStep sst).uniqueDates ∧
      (acts.foldl ProofCardRules.aggStep cst).hasObservedEvidence =
        (acts.foldl Edge.aggStep sst).hasObservedEvidence ∧
      (acts.foldl ProofCardRules.aggStep cst).observedSessionCount =
        (acts.foldl Edge.aggStep sst).observedSessionCount ∧
      (acts.foldl ProofCardRules.aggStep cst).hasErrorCorrectionCycles =
        (acts.foldl Edge.aggStep sst).hasErrorCorrectionCycles ∧
      (acts.foldl ProofCardRules.aggStep cst).activityTypes =
        (acts.foldl Edge.aggStep sst).activityTypes := by
  intro acts
  induction acts with
  | nil =>
    intro cst sst h1 h2 h3 h4 h5 _
    exact ⟨h1, h2, h3, h4, h5⟩
  | cons a acts ih =>
    intro cst sst h1 h2 h3 h4 h5 hca
    simp only [List.foldl_cons]
    have hc0 : a.created_at = none := hca a (List.mem_cons_self a acts)
    apply ih
    · rw [ProofCardRules.client_aggStep_uniqueDates, Edge.aggStep_uniqueDates, hc0, h1]
      rfl
    · rw [ProofCardRules.client_aggStep_hasObservedEvidence, Edge.aggStep_hasObservedEvidence, h2]
    · rw [ProofCardRules.client_aggStep_observedSessionCount, Edge.aggStep_observedSessionCount, h3]
    · rw [ProofCardRules.client_aggStep_hasErrorCorrectionCycles,
        Edge.aggStep_hasErrorCorrectionCycles, h4]
    · rw [ProofCardRules.client_aggStep_activityTypes, Edge.aggStep_activityTypes, h5]
    · intro b hb
      exact hca b (List.mem_cons_of_mem a hb)

/-- C6 (amended): the client-side preview pipeline and the server-side
pipeline agree — same shared metric fields, same requirement booleans, same
unlock decision, same confidence score — provided no activity carries a
`created_at` value (the client prefers `created_at` over `date` for the
unique-days computation; the server reads only `date`). -/
theorem C6_amended_pipelines_agree (acts : List Activity)
    (h : ∀ a ∈ acts, a.created_at = none) :
    (ProofCardRules.calculateEvidenceMetrics acts).uniqueDays =
      (Edge.calculateEvidenceMetrics acts).uniqueDays ∧
    (ProofCardRules.calculateEvidenceMetrics acts).sessionCount =
      (Edge.calculateEvidenceMetrics acts).sessionCount ∧
    (ProofCardRules.calculateEvidenceMetrics acts).hasObservedEvidence =
      (Edge.calculateEvidenceMetrics acts).hasObservedEvidence ∧
    (ProofCardRules.calculateEvidenceMetrics acts).observedSessionCount =
      (Edge.calculateEvidenceMetrics acts).observedSessionCount ∧
    (ProofCardRules.calculateEvidenceMetrics acts).hasErrorCorrectionCycles =
      (Edge.calculateEvidenceMetrics acts).hasErrorCorrectionCycles ∧
    (ProofCardRules.calculateEvidenceMetrics acts).activityTypes =
      (Edge.calculateEvidenceMetrics acts).activityTypes ∧
    ProofCardRules.evaluateUnlockRequirements (ProofCardRules.calculateEvidenceMetrics acts) =
      Edge.evaluateUnlockRequirements (Edge.calculateEvidenceMetrics acts) ∧
    ProofCardRules.shouldUnlock
        (ProofCardRules.evaluateUnlockRequirements (ProofCardRules.calculateEvidenceMetrics acts)) =
      Edge.shouldUnlock
        (Edge.evaluateUnlockRequirements (Edge.calculateEvidenceMetrics acts)) ∧
    ProofCardRules.calculateConfidenceScore (ProofCardRules.calculateEvidenceMetrics acts) =
      Edge.calculateConfidenceScore (Edge.calculateEvidenceMetrics acts) := by
  obtain ⟨H1, H2, H3, H4, H5⟩ :=
    client_server_foldl_agree acts ⟨[], false, 0, 0, false, []⟩ ⟨[], false, 0, false, []⟩
      rfl rfl rfl rfl rfl h
  have h1 : (ProofCardRules.calculateEvidenceMetrics acts).uniqueDays =
      (Edge.calculateEvidenceMetrics acts).uniqueDays := congrArg List.length H1
  have h2 : (ProofCardRules.calculateEvidenceMetrics acts).sessionCount =
      (Edge.calculateEvidenceMetrics acts).sessionCount := rfl
  have h3 : (ProofCardRules.calculateEvidenceMetrics acts).hasObservedEvidence =
      (Edge.calculateEvidenceMetrics acts).hasObservedEvidence := H2
  have h4 : (ProofCardRules.calculateEvidenceMetrics acts).observedSessionCount =
      (Edge.calculateEvidenceMetrics acts).observedSessionCount := H3
  have h5 : (ProofCardRules.calculateEvidenceMetrics acts).hasErrorCorrectionCycles =
      (Edge.calculateEvidenceMetrics acts).hasErrorCorrectionCycles := H4
  have h6 : (ProofCardRules.calculateEvidenceMetrics acts).activityTypes =
      (Edge.calculateEvidenceMetrics acts).activityTypes := H5
  have hreq : ProofCardRules.evaluateUnlockRequirements
        (ProofCardRules.calculateEvidenceMetrics acts) =
      Edge.evaluateUnlockRequirements (Edge.calculateEvidenceMetrics acts) := by
    simp only [ProofCardRules.evaluateUnlockRequirements, Edge.evaluateUnlockRequirements,
      Edge.MIN_UNIQUE_DAYS, Edge.MIN_SESSIONS, h1, h2, h3, h4, h5, h6]
  have hunlock : ProofCardRules.shouldUnlock
        (ProofCardRules.evaluateUnlockRequirements (ProofCardRules.calculateEvidenceMetrics acts)) =
      Edge.shouldUnlock
        (Edge.evaluateUnlockRequirements (Edge.calculateEvidenceMetrics acts)) := by
    rw [hreq]
    rfl
  have hscore : ProofCardRules.calculateConfidenceScore
        (ProofCardRules.calculateEvidenceMetrics acts) =
      Edge.calculateConfidenceScore (Edge.calculateEvidenceMetrics acts) := by
    simp only [ProofCardRules.calculateConfidenceScore, Edge.calculateConfidenceScore,
      h1, h2, h4, h5]
  exact ⟨h1, h2, h3, h4, h5, h6, hreq, hunlock, hscore⟩

/-- C6 witness: a concrete activity list without `created_at` values on
which the amended agreement theorem applies. -/
theorem C6_witness :
    (ProofCardRules.calculateEvidenceMetrics
        [{ date := some "2025-01-01T10:00:00Z", type := some "code" }]).uniqueDays =
      (Edge.calculateEvidenceMetrics
        [{ date := some "2025-01-01T10:00:00Z", type := some "code" }]).uniqueDays :=
  (C6_amended_pipelines_agree
    [{ date := some "2025-01-01T10:00:00Z", type := some "code" }] (by decide)).1

/-- C6 counterexample: three activities that carry dates only in
`created_at` unlock on the client-side pipeline but stay locked on the
server-side pipeline — the two engines are not identical. -/
theorem C6_counterexample :
    ProofCardRules.shouldUnlock
        (ProofCardRules.evaluateUnlockRequirements (ProofCardRules.calculateEvidenceMetrics
          [{ created_at := some "2025-01-01T09:00:00Z", type := some "code",
             evidence_source := some "observed_in_proof", learning_signals := some ⟨1⟩ },
           { created_at := some "2025-01-02T09:00:00Z", type := some "code",
             evidence_source := some "observed_in_proof" },
           { created_at := some "2025-01-03T09:00:00Z", type := some "code",
             evidence_source := some "observed_in_proof" }])) = true ∧
    Edge.shouldUnlock
        (Edge.evaluateUnlockRequirements (Edge.calculateEvidenceMetrics
          [{ created_at := some "2025-01-01T09:00:00Z", type := some "code",
             evidence_source := some "observed_in_proof", learning_signals := some ⟨1⟩ },
           { created_at := some "2025-01-02T09:00:00Z", type := some "code",
             evidence_source := some "observed_in_proof" },
           { created_at := some "2025-01-03T09:00:00Z", type := some "code",
             evidence_source := some "observed_in_proof" }])) = false ∧
    (ProofCardRules.calculateEvidenceMetrics
        [{ created_at := some "2025-01-01T09:00:00Z", type := some "code",
           evidence_source := some "observed_in_proof", learning_signals := some ⟨1⟩ },
         { created_at := some "2025-01-02T09:00:00Z", type := some "code",
           evidence_source := some "observed_in_proof" },
         { created_at := some "2025-01-03T09:00:00Z", type := some "code",
           evidence_source := some "observed_in_proof" }]).uniqueDays = 3 ∧
    (Edge.calculateEvidenceMetrics
        [{ created_at := some "2025-01-01T09:00:00Z", type := some "code",
           evidence_source := some "observed_in_proof", learning_signals := some ⟨1⟩ },
         { created_at := some "2025-01-02T09:00:00Z", type := some "code",
           evidence_source := some "observed_in_proof" },
         { created_at := some "2025-01-03T09:00:00Z", type := some "code",
           evidence_source := some "observed_in_proof" }]).uniqueDays = 0 :=
  ⟨by rfl, by rfl, by rfl, by rfl⟩

/-- C1 exhibit: the collaborator's behaviour does influence the
deterministic outputs.  On one and the same unlockable activity list, a
non-ok response still yields the unlocked payload (decision `some true`,
carrying the computed confidence), but a rejecting `fetch`, an ok response
whose body fails `response.json()`, or message content `null` each escape
to the catch-all and turn the whole response into the 500 error — no unlock
decision, no requirements, no confidence at all.  Only the locked path is
immune: it answers before the collaborator is ever invoked. -/
theorem C1_collaborator_failure_changes_outputs :
    Edge.respDecision (Edge.generateProofCard true .httpFailure "Python" "coding"
      [{ date := some "2025-01-01T10:00:00Z", type := some "code", evidence_source := some "observed_in_proof", learning_signals := some ⟨1⟩ },
       { date := some "2025-01-02T10:00:00Z", type := some "code", evidence_source := some "observed_in_proof" },
       { date := some "2025-01-03T10:00:00Z", type := some "code", evidence_source := some "submitted" }]).1 = some true ∧
    Edge.generateProofCard true (.fetchReject "error sending request") "Python" "coding"
      [{ date := some "2025-01-01T10:00:00Z", type := some "code", evidence_source := some "observed_in_proof", learning_signals := some ⟨1⟩ },
       { date := some "2025-01-02T10:00:00Z", type := some "code", evidence_source := some "observed_in_proof" },
       { date := some "2025-01-03T10:00:00Z", type := some "code", evidence_source := some "submitted" }] = (.err "error sending request", 1) ∧
    Edge.generateProofCard true (.okBodyUnparseable "Unexpected end of JSON input") "Python"
      "coding" [{ date := some "2025-01-01T10:00:00Z", type := some "code", evidence_source := some "observed_in_proof", learning_signals := some ⟨1⟩ },
       { date := some "2025-01-02T10:00:00Z", type := some "code", evidence_source := some "observed_in_proof" },
       { date := some "2025-01-03T10:00:00Z", type := some "code", evidence_source := some "submitted" }] = (.err "Unexpected end of JSON input", 1) ∧
    Edge.generateProofCard true .okContentNull "Python" "coding"
      [{ date := some "2025-01-01T10:00:00Z", type := some "code", evidence_source := some "observed_in_proof", learning_signals := some ⟨1⟩ },
       { date := some "2025-01-02T10:00:00Z", type := some "code", evidence_source := some "observed_in_proof" },
       { date := some "2025-01-03T10:00:00Z", type := some "code", evidence_source := some "submitted" }] = (.err Edge.nullTypeErrorMessage, 1) ∧
    Edge.respDecision (Edge.generateProofCard true (.fetchReject "error sending request")
      "Python" "coding" [{ date := some "2025-01-01T10:00:00Z", type := some "code", evidence_source := some "observed_in_proof", learning_signals := some ⟨1⟩ },
       { date := some "2025-01-02T10:00:00Z", type := some "code", evidence_source := some "observed_in_proof" },
       { date := some "2025-01-03T10:00:00Z", type := some "code", evidence_source := some "submitted" }]).1 = none ∧
    Edge.respConfidence (Edge.generateProofCard true (.fetchReject "error sending request")
      "Python" "coding" [{ date := some "2025-01-01T10:00:00Z", type := some "code", evidence_source := some "observed_in_proof", learning_signals := some ⟨1⟩ },
       { date := some "2025-01-02T10:00:00Z", type := some "code", evidence_source := some "observed_in_proof" },
       { date := some "2025-01-03T10:00:00Z", type := some "code", evidence_source := some "submitted" }]).1 = none ∧
    (∀ (b : Edge.CollabBehaviour) (s c : String) (acts : List Activity),
      Edge.shouldUnlock
          (Edge.evaluateUnlockRequirements (Edge.calculateEvidenceMetrics acts)) = false →
        Edge.respDecision (Edge.generateProofCard true b s c acts).1 = some false ∧
        (Edge.generateProofCard true b s c acts).2 = 0) := by
  refine ⟨by rfl, by rfl, by rfl, by rfl, by rfl, by rfl, ?_⟩
  intro b s c acts hU
  refine ⟨?_, ?_⟩ <;> simp [Edge.generateProofCard, hU, Edge.respDecision]

/-- C1 exhibit witness: the locked-path clause applied at a concrete input. -/
theorem C1_witness :
    Edge.respDecision (Edge.generateProofCard true .httpFailure "Python" "coding" []).1 =
      some false ∧
    (Edge.generateProofCard true .httpFailure "Python" "coding" []).2 = 0 :=
  (C1_collaborator_failure_changes_outputs.2.2.2.2.2.2 .httpFailure "Python" "coding" []
    (by rfl))

/-- C3 exhibit: when `LOVABLE_API_KEY` is missing, the handler throws before
the deterministic evaluation, so every `generate_proof_card` request — even
one that should yield a locked payload — gets the 500 error response instead
of a deterministic result. -/
theorem C3_missing_key_blocks_deterministic_path :
    (∀ (b : Edge.CollabBehaviour) (s c : String) (acts : List Activity),
      Edge.generateProofCard false b s c acts =
        (.err "LOVABLE_API_KEY is not configured", 0)) ∧
    Edge.respDecision (Edge.generateProofCard false .httpFailure "Python" "coding" []).1 =
      none :=
  ⟨fun _ _ _ _ => rfl, rfl⟩

/-- A string with a non-empty left part stays non-empty after appending. -/
theorem append_ne_empty_left (a b : String) (h : a ≠ "") : a ++ b ≠ "" := by
  intro hc
  apply h
  have hdata := congrArg String.data hc
  rw [String.data_append] at hdata
  have ha : a.data = [] := (List.append_eq_nil.mp hdata).1
  exact String.ext ha

/-- C7: if the collaborator returns a non-success response, or its output
fails to parse (or parses to `{}`), an unlockable input still yields an
unlocked payload whose `evidence_summary` is one of the two non-empty
deterministic templates built from the metrics and whose `confidence_score`
equals `calculateConfidenceScore(metrics)`, with the unlock decision
unchanged. -/
theorem C7_fallback_correctness (b : Edge.CollabBehaviour) (s c : String)
    (acts : List Activity)
    (hU : Edge.shouldUnlock
      (Edge.evaluateUnlockRequirements (Edge.calculateEvidenceMetrics acts)) = true)
    (hb : b = .httpFailure ∨ b = .ok none ∨ b = .ok (some {})) :
    Edge.respDecision (Edge.generateProofCard true b s c acts).1 = some true ∧
    (Edge.respEvidenceSummary (Edge.generateProofCard true b s c acts).1 =
        some ("Observed " ++ toString (Edge.calculateEvidenceMetrics acts).sessionCount ++
          " learning sessions for " ++ s ++ " across " ++
          toString (Edge.calculateEvidenceMetrics acts).uniqueDays ++
          " days with process evidence.") ∨
      Edge.respEvidenceSummary (Edge.generateProofCard true b s c acts).1 =
        some ("Observed " ++ toString (Edge.calculateEvidenceMetrics acts).sessionCount ++
          " learning sessions for " ++ s ++ " across " ++
          toString (Edge.calculateEvidenceMetrics acts).uniqueDays ++ " days.")) ∧
    Edge.respEvidenceSummary (Edge.generateProofCard true b s c acts).1 ≠ some "" ∧
    Edge.respConfidence (Edge.generateProofCard true b s c acts).1 =
      some (Edge.calculateConfidenceScore (Edge.calculateEvidenceMetrics acts)) := by
  have hobs : ("Observed " : String) ≠ "" := by decide
  rcases hb with rfl | rfl | rfl
  · refine ⟨?_, Or.inl ?_, ?_, ?_⟩
    · simp [Edge.generateProofCard, hU, Edge.respDecision]
    · simp [Edge.generateProofCard, hU, Edge.respEvidenceSummary]
    · simp only [Edge.generateProofCard, hU, Bool.not_true, Bool.false_eq_true, if_false,
        Edge.respEvidenceSummary, ne_eq, Option.some.injEq]
      apply append_ne_empty_left
      apply append_ne_empty_left
      apply append_ne_empty_left
      apply append_ne_empty_left
      apply append_ne_empty_left
      exact append_ne_empty_left _ _ hobs
    · simp [Edge.generateProofCard, hU, Edge.respConfidence]
  · refine ⟨?_, Or.inr ?_, ?_, ?_⟩
    · simp [Edge.generateProofCard, hU, Edge.respDecision]
    · simp [Edge.generateProofCard, hU, Edge.respEvidenceSummary, jsOrString]
    · simp only [Edge.generateProofCard, hU, Bool.not_true, Bool.false_eq_true, if_false,
        Edge.respEvidenceSummary, jsOrString, Option.getD_none, ne_eq, Option.some.injEq]
      apply append_ne_empty_left
      apply append_ne_empty_left
      apply append_ne_empty_left
      apply append_ne_empty_left
      apply append_ne_empty_left
      exact append_ne_empty_left _ _ hobs
    · simp [Edge.generateProofCard, hU, Edge.respConfidence]
  · refine ⟨?_, Or.inr ?_, ?_, ?_⟩
    · simp [Edge.generateProofCard, hU, Edge.respDecision]
    · simp [Edge.generateProofCard, hU, Edge.respEvidenceSummary, jsOrString]
    · simp only [Edge.generateProofCard, hU, Bool.not_true, Bool.false_eq_true, if_false,
        Edge.respEvidenceSummary, jsOrString, Option.getD_some, ne_eq, Option.some.injEq]
      apply append_ne_empty_left
      apply append_ne_empty_left
      apply append_ne_empty_left
      apply append_ne_empty_left
      apply append_ne_empty_left
      exact append_ne_empty_left _ _ hobs
    · simp [Edge.generateProofCard, hU, Edge.respConfidence]

/-- C7 witness: a concrete unlockable list with a failing collaborator. -/
theorem C7_witness :
    Edge.respDecision (Edge.generateProofCard true .httpFailure "Python" "coding"
      [{ date := some "2025-01-01T10:00:00Z", type := some "code",
         evidence_source := some "observed_in_proof", learning_signals := some ⟨1⟩ },
       { date := some "2025-01-02T10:00:00Z", type := some "code",
         evidence_source := some "observed_in_proof" },
       { date := some "2025-01-03T10:00:00Z", type := some "code",
         evidence_source := some "submitted" }]).1 = some true :=
  (C7_fallback_correctness .httpFailure "Python" "coding"
    [{ date := some "2025-01-01T10:00:00Z", type := some "code",
       evidence_source := some "observed_in_proof", learning_signals := some ⟨1⟩ },
     { date := some "2025-01-02T10:00:00Z", type := some "code",
       evidence_source := some "observed_in_proof" },
     { date := some "2025-01-03T10:00:00Z", type := some "code",
       evidence_source := some "submitted" }] (by decide) (Or.inl rfl)).1

/-- The defaulted last element of a non-empty list is a member. -/
theorem list_getLastD_mem : ∀ (l : List String) (d : String), l ≠ [] → l.getLastD d ∈ l
  | [], _, h => absurd rfl h
  | [a], d, _ => by simp [List.getLastD_cons]
  | a :: b :: t, d, _ => by
    rw [List.getLastD_cons]
    exact List.mem_cons_of_mem _ (list_getLastD_mem (b :: t) a (by simp))

/-- In a `≤`-sorted list every element is at most the defaulted last element. -/
theorem sorted_le_getLastD : ∀ (l : List String) (d : String),
    l.Sorted (· ≤ ·) → ∀ x ∈ l, x ≤ l.getLastD d
  | [], _, _, x, hx => absurd hx (by simp)
  | [a], d, _, x, hx => by
    simp only [List.mem_singleton] at hx
    subst hx
    simp [List.getLastD_cons]
  | a :: b :: t, d, hs, x, hx => by
    rw [List.getLastD_cons]
    rcases List.mem_cons.mp hx with rfl | hx2
    · exact List.rel_of_sorted_cons hs _ (list_getLastD_mem (b :: t) x (by simp))
    · exact sorted_le_getLastD (b :: t) a (List.Pairwise.of_cons hs) x hx2

/-- In a `≤`-sorted non-empty list the defaulted head is a member and a lower
bound. -/
theorem sorted_headD_min (l : List String) (h : l ≠ []) (hs : l.Sorted (· ≤ ·)) :
    l.headD "" ∈ l ∧ ∀ x ∈ l, l.headD "" ≤ x := by
  cases l with
  | nil => exact absurd rfl h
  | cons a t =>
    refine ⟨by simp, ?_⟩
    intro x hx
    rcases List.mem_cons.mp hx with rfl | hx2
    · simp
    · simpa using List.rel_of_sorted_cons hs x hx2

/-- C9: every unlocked payload's `time_span` is the minimum and maximum of
the activities' truthy date strings formatted as a range (unlocking forces at
least three distinct dates, so the single-date and `"Recent"` branches cannot
occur on unlocked cards). -/
theorem C9_time_span_min_max_range (k : Bool) (b : Edge.CollabBehaviour) (s c : String)
    (acts : List Activity)
    (hU : Edge.respDecision (Edge.generateProofCard k b s c acts).1 = some true) :
    ∃ mn mx, mn ∈ (acts.filterMap fun a => jsDate a.date) ∧
      mx ∈ (acts.filterMap fun a => jsDate a.date) ∧
      (∀ x ∈ (acts.filterMap fun a => jsDate a.date), mn ≤ x ∧ x ≤ mx) ∧
      Edge.respTimeSpan (Edge.generateProofCard k b s c acts).1 =
        some (mn ++ " to " ++ mx) := by
  cases k with
  | false => simp [Edge.generateProofCard, Edge.respDecision] at hU
  | true =>
  cases hS : Edge.shouldUnlock
      (Edge.evaluateUnlockRequirements (Edge.calculateEvidenceMetrics acts)) with
  | false => simp [Edge.generateProofCard, hS, Edge.respDecision] at hU
  | true =>
  have hd3 : 3 ≤ (Edge.calculateEvidenceMetrics acts).uniqueDays := by
    simp only [Edge.shouldUnlock, Edge.evaluateUnlockRequirements, Edge.MIN_UNIQUE_DAYS,
      Edge.MIN_SESSIONS, Bool.and_eq_true, decide_eq_true_eq] at hS
    exact hS.1.1.1.1
  have hlen : 3 ≤ (acts.filterMap fun a => jsDate a.date).length := by
    have hbound := Edge.foldl_uniqueDates_length_le acts ⟨[], false, 0, false, []⟩
    have : (Edge.calculateEvidenceMetrics acts).uniqueDays =
        (acts.foldl Edge.aggStep ⟨[], false, 0, false, []⟩).uniqueDates.length := rfl
    rw [this] at hd3
    simpa using le_trans hd3 hbound
  have hslen : 1 < (List.insertionSort (· ≤ ·) (acts.filterMap fun a => jsDate a.date)).length := by
    rw [List.length_insertionSort]
    omega
  have hsne : List.insertionSort (· ≤ ·) (acts.filterMap fun a => jsDate a.date) ≠ [] := by
    intro hc
    rw [hc] at hslen
    simp at hslen
  have hsorted := List.sorted_insertionSort (α := String) (· ≤ ·)
    (acts.filterMap fun a => jsDate a.date)
  have hperm := List.perm_insertionSort (α := String) (· ≤ ·)
    (acts.filterMap fun a => jsDate a.date)
  obtain ⟨hmnmem, hmnmin⟩ := sorted_headD_min _ hsne hsorted
  refine ⟨(List.insertionSort (· ≤ ·) (acts.filterMap fun a => jsDate a.date)).headD "",
    (List.insertionSort (· ≤ ·) (acts.filterMap fun a => jsDate a.date)).getLastD "",
    ?_, ?_, ?_, ?_⟩
  · exact hperm.subset hmnmem
  · exact hperm.subset (list_getLastD_mem _ "" hsne)
  · intro x hx
    have hxs : x ∈ List.insertionSort (· ≤ ·) (acts.filterMap fun a => jsDate a.date) :=
      hperm.mem_iff.mpr hx
    exact ⟨hmnmin x hxs, sorted_le_getLastD _ "" hsorted x hxs⟩
  · simp only [Edge.generateProofCard, hS, Bool.not_true, Bool.false_eq_true, if_false,
      Bool.not_false, if_true, Edge.respTimeSpan]
    cases b with
    | fetchReject msg => simp [Edge.generateProofCard, hS, Edge.respDecision] at hU
    | okBodyUnparseable msg => simp [Edge.generateProofCard, hS, Edge.respDecision] at hU
    | okContentNull => simp [Edge.generateProofCard, hS, Edge.respDecision] at hU
    | httpFailure =>
      simp [Edge.respTimeSpan, if_pos hslen]
      intro hcontra
      exact absurd hlen (by omega)
    | ok parsed =>
      simp [Edge.respTimeSpan, if_pos hslen]
      intro hcontra
      exact absurd hlen (by omega)

/-- C9 witness: the theorem applied to a concrete unlocked run. -/
theorem C9_witness :
    ∃ mn mx,
      mn ∈ (([{ date := some "2025-01-01T10:00:00Z", type := some "code", evidence_source := some "observed_in_proof", learning_signals := some ⟨1⟩ },
      { date := some "2025-01-02T10:00:00Z", type := some "code", evidence_source := some "observed_in_proof" },
      { date := some "2025-01-03T10:00:00Z", type := some "code", evidence_source := some "submitted" }] : List Activity).filterMap fun a => jsDate a.date) ∧
      mx ∈ (([{ date := some "2025-01-01T10:00:00Z", type := some "code", evidence_source := some "observed_in_proof", learning_signals := some ⟨1⟩ },
      { date := some "2025-01-02T10:00:00Z", type := some "code", evidence_source := some "observed_in_proof" },
      { date := some "2025-01-03T10:00:00Z", type := some "code", evidence_source := some "submitted" }] : List Activity).filterMap fun a => jsDate a.date) ∧
      (∀ x ∈ (([{ date := some "2025-01-01T10:00:00Z", type := some "code", evidence_source := some "observed_in_proof", learning_signals := some ⟨1⟩ },
      { date := some "2025-01-02T10:00:00Z", type := some "code", evidence_source := some "observed_in_proof" },
      { date := some "2025-01-03T10:00:00Z", type := some "code", evidence_source := some "submitted" }] : List Activity).filterMap fun a => jsDate a.date), mn ≤ x ∧ x ≤ mx) ∧
      Edge.respTimeSpan (Edge.generateProofCard true (.ok none) "Python" "coding"
        [{ date := some "2025-01-01T10:00:00Z", type := some "code", evidence_source := some "observed_in_proof", learning_signals := some ⟨1⟩ },
      { date := some "2025-01-02T10:00:00Z", type := some "code", evidence_source := some "observed_in_proof" },
      { date := some "2025-01-03T10:00:00Z", type := some "code", evidence_source := some "submitted" }]).1 = some (mn ++ " to " ++ mx) :=
  C9_time_span_min_max_range true (.ok none) "Python" "coding"
    [{ date := some "2025-01-01T10:00:00Z", type := some "code", evidence_source := some "observed_in_proof", learning_signals := some ⟨1⟩ },
      { date := some "2025-01-02T10:00:00Z", type := some "code", evidence_source := some "observed_in_proof" },
      { date := some "2025-01-03T10:00:00Z", type := some "code", evidence_source := some "submitted" }] (by rfl)
